import Mathlib

set_option maxHeartbeats 1000000

namespace AgenticBI

/-!
Shallow embedding of the client-side Human-in-the-Loop (HITL) subsystem of
the repository: the Zustand HITL store (`frontend/src/stores/hitl.store.ts`),
the `useHITL` hook (`frontend/src/hooks/useHITL.ts`) and the WebSocket
service (`frontend/src/services/websocket.service.ts`).

Modelling conventions: timestamps are epoch milliseconds as `Int`
(JavaScript `Date.getTime()` / `Date.now()`); countdown values are seconds
as `Int`; `Math.floor` of a real quotient of integers is `Int.fdiv`.
The outcome of the asynchronous `hitlService.submitResponse` call is an
explicit `Except String Unit` parameter.
-/

/-- The `WorkflowEventType` enum of `websocket.service.ts`. -/
inductive WorkflowEventType
  | workflow_started
  | workflow_completed
  | workflow_failed
  | workflow_paused
  | workflow_resumed
  | stage_started
  | stage_completed
  | stage_failed
  | agent_started
  | agent_completed
  | connection_ack
  | subscription_ack
  | human_input_required
  | human_input_received
  | human_input_timeout
deriving DecidableEq

/-- The fields of `event.data` that `useHITL.handleHITLEvent` reads when it
builds a pending request from a `human_input.required` event.  `timeout_at`
is the parsed epoch-millisecond value of the ISO timestamp string. -/
structure HITLEventData where
  request_id : String
  intervention_type : String
  context : String
  options : List String
  timeout_seconds : Int
  timeout_at : Int
  requested_at : Option Int
deriving DecidableEq

/-- The `WorkflowEvent` structure of `websocket.service.ts` (the fields the
HITL pipeline reads; `timestamp` as parsed epoch milliseconds). -/
structure WorkflowEvent where
  event_type : WorkflowEventType
  workflow_id : String
  conversation_id : Option String
  timestamp : Int
  data : Option HITLEventData
deriving DecidableEq

/-- `HITLRequestStatus` from `hitl.types.ts`. -/
inductive HITLRequestStatus
  | pending
  | approved
  | rejected
  | modified
  | timeout
  | cancelled
deriving DecidableEq

/-- The `HITLRequest` structure of `hitl.types.ts`. -/
structure HITLRequest where
  request_id : String
  workflow_id : String
  conversation_id : Option String
  intervention_type : String
  context : String
  options : List String
  timeout_seconds : Int
  timeout_at : Int
  requested_at : Int
  status : HITLRequestStatus
  required : Bool
deriving DecidableEq

/-- The slice of the Zustand HITL store state (`hitl.store.ts`) that the
pending-request protocol touches: `pendingRequest`, `timeRemaining`,
`isSubmitting` and `error`.  (The history and notification-preference
fields of the store are independent of the pending-request protocol.) -/
structure HITLState where
  pendingRequest : Option HITLRequest
  timeRemaining : Int
  isSubmitting : Bool
  error : Option String
deriving DecidableEq

/-- Initial store state of `useHITLStore`. -/
def initialHITLState : HITLState :=
  { pendingRequest := none, timeRemaining := 0, isSubmitting := false, error := none }

/-- `setPendingRequest` of `hitl.store.ts`: stores the request and derives
`timeRemaining = Math.max(0, Math.floor((timeoutAt - now) / 1000))` from the
absolute `timeout_at` deadline; a `null` request resets the countdown to 0. -/
def setPendingRequest (now : Int) (request : Option HITLRequest) (s : HITLState) : HITLState :=
  match request with
  | some r =>
      { s with pendingRequest := some r,
               timeRemaining := max 0 ((r.timeout_at - now).fdiv 1000) }
  | none => { s with pendingRequest := none, timeRemaining := 0 }

/-- `updateTimeRemaining` of `hitl.store.ts`: applies an updater to the
current countdown value. -/
def updateTimeRemaining (f : Int → Int) (s : HITLState) : HITLState :=
  { s with timeRemaining := f s.timeRemaining }

/-- `submitResponse` of `hitl.store.ts`.  It first sets
`isSubmitting := true, error := null`; if the service call succeeds it
clears the pending request and countdown; if it rejects it records the
error message and rethrows, leaving `pendingRequest` and `timeRemaining`
untouched. -/
def submitResponse (result : Except String Unit) (s : HITLState) : HITLState :=
  let s0 : HITLState := { s with isSubmitting := true, error := none }
  match result with
  | Except.ok _ =>
      { s0 with pendingRequest := none, timeRemaining := 0, isSubmitting := false }
  | Except.error msg =>
      { s0 with error := some msg, isSubmitting := false }

/-- `clearPendingRequest` of `hitl.store.ts`. -/
def clearPendingRequest (s : HITLState) : HITLState :=
  { s with pendingRequest := none, timeRemaining := 0 }

/-- State of the `useHITL` hook: the store plus the countdown interval ref
(`countdownIntervalRef.current ≠ null` is `countdownActive = true`). -/
structure HookState where
  store : HITLState
  countdownActive : Bool
deriving DecidableEq

/-- Hook state on mount: empty store, no countdown interval. -/
def initialHookState : HookState :=
  { store := initialHITLState, countdownActive := false }

/-- `startCountdown` of `useHITL.ts`: clears any existing interval and
installs a fresh 1-second interval (its `seconds` argument is only logged). -/
def startCountdown (s : HookState) : HookState :=
  { s with countdownActive := true }

/-- `stopCountdown` of `useHITL.ts`: clears the interval if one is set. -/
def stopCountdown (s : HookState) : HookState :=
  { s with countdownActive := false }

/-- The request object `handleHITLEvent` builds from a
`human_input.required` event (`requested_at` falls back to the event
timestamp via `event.data.requested_at || event.timestamp`). -/
def requestOfEvent (e : WorkflowEvent) (d : HITLEventData) : HITLRequest :=
  { request_id := d.request_id
    workflow_id := e.workflow_id
    conversation_id := e.conversation_id
    intervention_type := d.intervention_type
    context := d.context
    options := d.options
    timeout_seconds := d.timeout_seconds
    timeout_at := d.timeout_at
    requested_at := d.requested_at.getD e.timestamp
    status := HITLRequestStatus.pending
    required := true }

/-- `handleHITLEvent` of `useHITL.ts`: on `human_input.required` with a
data payload it stores the request (which replaces any previous one) and
starts the countdown; on `human_input.received` or `human_input.timeout`
it clears the pending request and stops the countdown; every other event
type leaves the hook state unchanged.  The three guards of the source are
mutually exclusive because an event has exactly one `event_type`. -/
def handleHITLEvent (now : Int) (e : WorkflowEvent) (s : HookState) : HookState :=
  if e.event_type = WorkflowEventType.human_input_required then
    match e.data with
    | some d =>
        startCountdown
          { s with store := setPendingRequest now (some (requestOfEvent e d)) s.store }
    | none => s
  else if e.event_type = WorkflowEventType.human_input_received then
    stopCountdown { s with store := clearPendingRequest s.store }
  else if e.event_type = WorkflowEventType.human_input_timeout then
    stopCountdown { s with store := clearPendingRequest s.store }
  else s

/-- The updater passed to `updateTimeRemaining` by the interval callback of
`startCountdown`: `next = prev - 1; if next <= 0 then 0 else next`. -/
def tickUpdater (prev : Int) : Int :=
  if prev - 1 ≤ 0 then 0 else prev - 1

/-- One firing of the 1-second interval installed by `startCountdown`:
it only runs while the interval is installed; it decrements the countdown
through `updateTimeRemaining`, and when the decremented value reaches zero
it additionally stops the interval (`stopCountdown`) and clamps at 0. -/
def countdownTick (s : HookState) : HookState :=
  if s.countdownActive then
    if s.store.timeRemaining - 1 ≤ 0 then
      stopCountdown { s with store := updateTimeRemaining tickUpdater s.store }
    else
      { s with store := updateTimeRemaining tickUpdater s.store }
  else s

/-- The operations that can touch the hook + store state at runtime: a
WebSocket event delivered to the registered handler, a countdown interval
firing, a `submitResponse` round trip, and the effect-cleanup path of the
hook (which stops the countdown). -/
inductive HookStep : HookState → HookState → Prop
  | wsEvent (now : Int) (e : WorkflowEvent) (s : HookState) :
      HookStep s (handleHITLEvent now e s)
  | timerTick (s : HookState) : HookStep s (countdownTick s)
  | submit (r : Except String Unit) (s : HookState) :
      HookStep s { s with store := submitResponse r s.store }
  | cleanup (s : HookState) : HookStep s (stopCountdown s)

/-- States reachable from the mounted hook by the runtime operations. -/
inductive ReachableHook : HookState → Prop
  | init : ReachableHook initialHookState
  | step {s t : HookState} : ReachableHook s → HookStep s t → ReachableHook t

/-- Number of pending intervention requests held by the client store. -/
def pendingCount (s : HookState) : Nat :=
  match s.store.pendingRequest with
  | none => 0
  | some _ => 1

/-- Claim C1: at every reachable state of the client HITL store there is at
most one pending intervention request; a `human_input.required` event
replaces (never accumulates beside) the current pending request, leaving
exactly one; and a `human_input.received` or `human_input.timeout` event
leaves the store with no pending request and the countdown stopped. -/
theorem hitl_store_at_most_one_pending :
    (∀ s : HookState, ReachableHook s → pendingCount s ≤ 1) ∧
    (∀ (now : Int) (e : WorkflowEvent) (d : HITLEventData) (s : HookState),
      e.event_type = WorkflowEventType.human_input_required → e.data = some d →
      (handleHITLEvent now e s).store.pendingRequest = some (requestOfEvent e d) ∧
      pendingCount (handleHITLEvent now e s) = 1) ∧
    (∀ (now : Int) (e : WorkflowEvent) (s : HookState),
      e.event_type = WorkflowEventType.human_input_received ∨
        e.event_type = WorkflowEventType.human_input_timeout →
      (handleHITLEvent now e s).store.pendingRequest = none ∧
      (handleHITLEvent now e s).countdownActive = false) := by
  refine ⟨?_, ?_, ?_⟩
  · intro s _
    cases h : s.store.pendingRequest <;> simp [pendingCount, h]
  · intro now e d s htype hdata
    simp only [handleHITLEvent]
    rw [htype, hdata]
    exact ⟨rfl, rfl⟩
  · intro now e s htype
    rcases htype with h | h <;>
      · simp only [handleHITLEvent]
        rw [h]
        exact ⟨rfl, rfl⟩

/-- Sample `human_input.required` event payload. -/
def sampleData : HITLEventData :=
  { request_id := "r1", intervention_type := "sql_review", context := "ctx",
    options := ["approve", "reject"], timeout_seconds := 300,
    timeout_at := 300000, requested_at := none }

/-- Sample `human_input.required` event. -/
def sampleRequiredEvent : WorkflowEvent :=
  { event_type := WorkflowEventType.human_input_required, workflow_id := "w1",
    conversation_id := none, timestamp := 0, data := some sampleData }

/-- Sample `human_input.received` event. -/
def sampleReceivedEvent : WorkflowEvent :=
  { event_type := WorkflowEventType.human_input_received, workflow_id := "w1",
    conversation_id := none, timestamp := 0, data := none }

/-- Witness for C1 at concrete inputs. -/
theorem hitl_store_at_most_one_pending_witness :
    pendingCount initialHookState ≤ 1 ∧
    pendingCount (handleHITLEvent 0 sampleRequiredEvent initialHookState) = 1 ∧
    (handleHITLEvent 0 sampleReceivedEvent initialHookState).store.pendingRequest = none := by
  obtain ⟨h1, h2, h3⟩ := hitl_store_at_most_one_pending
  exact ⟨h1 initialHookState ReachableHook.init,
         (h2 0 sampleRequiredEvent sampleData initialHookState rfl rfl).2,
         (h3 0 sampleReceivedEvent initialHookState (Or.inl rfl)).1⟩

/-- Claim C2: a rejected `submitResponse` service call leaves
`pendingRequest` and `timeRemaining` unchanged and records the error in
`error`; a successful call sets `pendingRequest := null` and
`timeRemaining := 0`. -/
theorem hitl_submit_response_outcomes (s : HITLState) (msg : String) :
    (submitResponse (Except.error msg) s).pendingRequest = s.pendingRequest ∧
    (submitResponse (Except.error msg) s).timeRemaining = s.timeRemaining ∧
    (submitResponse (Except.error msg) s).error = some msg ∧
    (submitResponse (Except.ok ()) s).pendingRequest = none ∧
    (submitResponse (Except.ok ()) s).timeRemaining = 0 :=
  ⟨rfl, rfl, rfl, rfl, rfl⟩

/-- Claim C5: processing a `human_input.required` event stores the built
request as the single pending request, sets the initial countdown to
`max 0 (floor ((timeout_at - now) / 1000))` seconds derived from the
absolute `timeout_at` deadline, and starts the 1-second decrement tick. -/
theorem hitl_required_event_sets_countdown
    (now : Int) (e : WorkflowEvent) (d : HITLEventData) (s : HookState)
    (htype : e.event_type = WorkflowEventType.human_input_required)
    (hdata : e.data = some d) :
    (handleHITLEvent now e s).store.pendingRequest = some (requestOfEvent e d) ∧
    (handleHITLEvent now e s).store.timeRemaining =
      max 0 ((d.timeout_at - now).fdiv 1000) ∧
    (handleHITLEvent now e s).countdownActive = true := by
  simp only [handleHITLEvent]
  rw [htype, hdata]
  exact ⟨rfl, rfl, rfl⟩

/-- Witness for C5 at concrete inputs. -/
theorem hitl_required_event_sets_countdown_witness :
    (handleHITLEvent 0 sampleRequiredEvent initialHookState).store.timeRemaining =
      max 0 (((300000 : Int) - 0).fdiv 1000) ∧
    (handleHITLEvent 0 sampleRequiredEvent initialHookState).countdownActive = true := by
  have h := hitl_required_event_sets_countdown 0 sampleRequiredEvent sampleData
    initialHookState rfl rfl
  exact ⟨h.2.1, h.2.2⟩

/-- Claim C6: a countdown tick never changes `pendingRequest`,
`isSubmitting` or `error` (in particular it submits and resolves nothing);
when the running countdown reaches zero it only clamps `timeRemaining` at 0
and stops the interval. -/
theorem hitl_tick_zero_frame (s : HookState) :
    (countdownTick s).store.pendingRequest = s.store.pendingRequest ∧
    (countdownTick s).store.isSubmitting = s.store.isSubmitting ∧
    (countdownTick s).store.error = s.store.error ∧
    (s.countdownActive = true → s.store.timeRemaining ≤ 1 →
      (countdownTick s).store.timeRemaining = 0 ∧
      (countdownTick s).countdownActive = false) := by
  unfold countdownTick
  by_cases ha : s.countdownActive = true
  · by_cases hz : s.store.timeRemaining - 1 ≤ 0
    · rw [if_pos ha, if_pos hz]
      refine ⟨rfl, rfl, rfl, fun _ _ => ⟨?_, rfl⟩⟩
      simp [stopCountdown, updateTimeRemaining, tickUpdater, hz]
    · rw [if_pos ha, if_neg hz]
      exact ⟨rfl, rfl, rfl, fun _ hle => absurd (by omega) hz⟩
  · rw [if_neg ha]
    exact ⟨rfl, rfl, rfl, fun hact _ => absurd hact ha⟩

/-- Hook state with a running countdown about to reach zero. -/
def sampleTickState : HookState :=
  { store := { pendingRequest := none, timeRemaining := 1,
               isSubmitting := false, error := none },
    countdownActive := true }

/-- Witness for C6 at a concrete state. -/
theorem hitl_tick_zero_frame_witness :
    (countdownTick sampleTickState).store.pendingRequest = none ∧
    (countdownTick sampleTickState).store.timeRemaining = 0 ∧
    (countdownTick sampleTickState).countdownActive = false := by
  have h := hitl_tick_zero_frame sampleTickState
  have h4 := h.2.2.2 rfl (by decide)
  exact ⟨h.1, h4.1, h4.2⟩

/-!
WebSocket service (`websocket.service.ts`).  The browser socket is
represented by its ready state; outbound frames (`subscribe`,
`unsubscribe`, `ping`) are collected as explicit outputs; callbacks are
represented by `Handler` values whose behaviour (self-removal via `off`,
throwing) is the part of a callback the dispatcher can observe.
-/

/-- Ready states of the underlying browser WebSocket. -/
inductive WSReadyState
  | connecting
  | opened
  | closing
  | closed
deriving DecidableEq

/-- Outbound frames the service sends. -/
inductive OutMsg
  | subscribeMsg (workflow_id : String)
  | unsubscribeMsg (workflow_id : String)
  | pingMsg
deriving DecidableEq

/-- An event callback, abstracted to what the dispatcher can observe of it:
an identity, whether invoking it removes itself via `off(workflowId, cb)`,
and whether invoking it throws. -/
structure Handler where
  hid : Nat
  removesSelf : Bool
  throws : Bool
deriving DecidableEq

/-- The mutable fields of the `WebSocketService` singleton.
`subscribedWorkflows` is the JS `Set` in insertion order;
`eventCallbacks` is the JS `Map` as an association list with unique keys. -/
structure WSService where
  ws : Option WSReadyState
  reconnectAttempts : Nat
  connectionFailed : Bool
  isConnecting : Bool
  subscribedWorkflows : List String
  eventCallbacks : List (String × List Handler)
  pingActive : Bool
deriving DecidableEq

/-- Field initializers of `WebSocketService`. -/
def initialService : WSService :=
  { ws := none, reconnectAttempts := 0, connectionFailed := false,
    isConnecting := false, subscribedWorkflows := [], eventCallbacks := [],
    pingActive := false }

/-- `maxReconnectAttempts = 5`. -/
def maxReconnectAttempts : Nat := 5

/-- `reconnectDelay = 1000` (milliseconds). -/
def reconnectDelayMs : Nat := 1000

/-- JS `Set.add`: no-op when the element is present, else append. -/
def setAdd (l : List String) (w : String) : List String :=
  if w ∈ l then l else l ++ [w]

/-- JS `Set.delete` (a `Set` holds no duplicates). -/
def setDel : List String → String → List String
  | [], _ => []
  | x :: xs, w => if x = w then setDel xs w else x :: setDel xs w

/-- JS `Map.get` on the callback registry. -/
def mapFind : List (String × List Handler) → String → Option (List Handler)
  | [], _ => none
  | p :: ps, k => if p.1 = k then some p.2 else mapFind ps k

/-- JS `Map.delete` on the callback registry. -/
def mapDelete : List (String × List Handler) → String → List (String × List Handler)
  | [], _ => []
  | p :: ps, k => if p.1 = k then mapDelete ps k else p :: mapDelete ps k

/-- Replace the value stored under an existing key (in-place array
mutation through a `Map.get` reference, as the source does). -/
def mapUpdate : List (String × List Handler) → String → List Handler →
    List (String × List Handler)
  | [], _, _ => []
  | p :: ps, k, v => if p.1 = k then (k, v) :: ps else p :: mapUpdate ps k v

/-- `subscribe(workflowId)`: when the socket is not open the id is queued
into `subscribedWorkflows` and nothing is sent; when open, a subscribe
frame is sent and the id is added.  (The send is modelled as succeeding;
its `try/catch` only guards the transport.) -/
def subscribe (w : String) (s : WSService) : WSService × List OutMsg :=
  if s.ws = some WSReadyState.opened then
    ({ s with subscribedWorkflows := setAdd s.subscribedWorkflows w },
     [OutMsg.subscribeMsg w])
  else
    ({ s with subscribedWorkflows := setAdd s.subscribedWorkflows w }, [])

/-- `unsubscribe(workflowId)`: removes the id from `subscribedWorkflows`
and deletes its callback entry; when the socket is open it additionally
sends an unsubscribe frame. -/
def unsubscribe (w : String) (s : WSService) : WSService × List OutMsg :=
  if s.ws = some WSReadyState.opened then
    ({ s with subscribedWorkflows := setDel s.subscribedWorkflows w,
              eventCallbacks := mapDelete s.eventCallbacks w },
     [OutMsg.unsubscribeMsg w])
  else
    ({ s with subscribedWorkflows := setDel s.subscribedWorkflows w,
              eventCallbacks := mapDelete s.eventCallbacks w }, [])

/-- How a call to `connect()` returns to its caller. -/
inductive ConnectOutcome
  | skippedFailed
  | skippedOpen
  | skippedConnecting
  | rejectedNoToken
  | connectionStarted
deriving DecidableEq

/-- `connect()` up to the creation of the socket: the three guard returns
(previous failures, already open, already connecting), the missing-token
rejection (which flags `connectionFailed` and rethrows through the catch
block, so the returned promise rejects), and the successful start of a
connection attempt.  `token` is `localStorage.getItem('access_token')`. -/
def connect (token : Option String) (s : WSService) : WSService × ConnectOutcome :=
  if s.connectionFailed then (s, ConnectOutcome.skippedFailed)
  else if s.ws = some WSReadyState.opened then (s, ConnectOutcome.skippedOpen)
  else if s.isConnecting then (s, ConnectOutcome.skippedConnecting)
  else
    match token with
    | none =>
        ({ s with isConnecting := false, connectionFailed := true },
         ConnectOutcome.rejectedNoToken)
    | some _ =>
        ({ s with isConnecting := true, ws := some WSReadyState.connecting },
         ConnectOutcome.connectionStarted)

/-- Result of the `onclose` handler: the new service state plus the delay
of the reconnection attempt it scheduled via `setTimeout`, if any. -/
structure CloseResult where
  state : WSService
  scheduledDelayMs : Option Nat
deriving DecidableEq

/-- First phase of the `onclose` handler: reset `isConnecting`, drop the
socket, stop the ping interval. -/
def closeReset (s : WSService) : WSService :=
  { s with isConnecting := false, ws := none, pingActive := false }

/-- The `onclose` handler of `connect()`: resets the socket and ping, then
schedules a reconnect after `reconnectDelay * attempts` ms when the close
code is not 1000 and fewer than `maxReconnectAttempts` attempts were made;
when the attempts are exhausted it sets `connectionFailed`. -/
def handleClose (code : Nat) (s : WSService) : CloseResult :=
  if code ≠ 1000 ∧ s.reconnectAttempts < maxReconnectAttempts then
    { state := { closeReset s with reconnectAttempts := s.reconnectAttempts + 1 },
      scheduledDelayMs := some (reconnectDelayMs * (s.reconnectAttempts + 1)) }
  else if maxReconnectAttempts ≤ s.reconnectAttempts then
    { state := { closeReset s with connectionFailed := true }, scheduledDelayMs := none }
  else
    { state := closeReset s, scheduledDelayMs := none }

/-- `subscribedWorkflows.forEach(id => this.subscribe(id))`, collecting the
frames sent. -/
def resubscribeAll : List String → WSService → WSService × List OutMsg
  | [], s => (s, [])
  | w :: rest, s =>
      let r1 := subscribe w s
      let r2 := resubscribeAll rest r1.1
      (r2.1, r1.2 ++ r2.2)

/-- The `onopen` handler of `connect()`: the socket is now open; reset the
attempt counter, re-subscribe every workflow in `subscribedWorkflows`, and
start the ping interval. -/
def handleOpen (s : WSService) : WSService × List OutMsg :=
  let s1 : WSService :=
    { s with ws := some WSReadyState.opened, reconnectAttempts := 0, isConnecting := false }
  let r := resubscribeAll s1.subscribedWorkflows s1
  ({ r.1 with pingActive := true }, r.2)

/-- `disconnect()`: clears the reconnect timer, the ping interval, the
socket (closing it with code 1000), the subscriptions and the callbacks;
`connectionFailed` is not reset. -/
def disconnect (s : WSService) : WSService :=
  { ws := none, reconnectAttempts := 0, connectionFailed := s.connectionFailed,
    isConnecting := false, subscribedWorkflows := [], eventCallbacks := [],
    pingActive := false }

/-- `on(workflowId, callback)`: creates the entry if missing, then pushes. -/
def onCb (w : String) (h : Handler) (m : List (String × List Handler)) :
    List (String × List Handler) :=
  match mapFind m w with
  | none => m ++ [(w, [h])]
  | some cbs => mapUpdate m w (cbs ++ [h])

/-- `Array.splice(indexOf(cb), 1)`: removes the first occurrence, no-op
when absent. -/
def spliceFirst : List Handler → Handler → List Handler
  | [], _ => []
  | x :: xs, h => if x = h then xs else x :: spliceFirst xs h

/-- `off(workflowId, callback)` with a specific callback: splices it out of
the live array and deletes the map entry when the array becomes empty. -/
def offCb (w : String) (h : Handler) (m : List (String × List Handler)) :
    List (String × List Handler) :=
  match mapFind m w with
  | none => m
  | some cbs =>
      let cbs2 := spliceFirst cbs h
      if cbs2 = [] then mapDelete m w else mapUpdate m w cbs2

/-- Claim C7: `subscribe` is idempotent on the subscription state, and
`unsubscribe` of an id that is neither subscribed nor has handlers leaves
the whole service state unchanged. -/
theorem ws_subscribe_unsubscribe_idempotent (w : String) (s : WSService) :
    (subscribe w (subscribe w s).1).1 = (subscribe w s).1 ∧
    (w ∉ s.subscribedWorkflows → mapFind s.eventCallbacks w = none →
      (unsubscribe w s).1 = s) := by
  have hsub : ∀ t : WSService,
      (subscribe w t).1 = { t with subscribedWorkflows := setAdd t.subscribedWorkflows w } := by
    intro t
    unfold subscribe
    split <;> rfl
  have hmem : ∀ l : List String, w ∈ setAdd l w := by
    intro l
    unfold setAdd
    split
    · assumption
    · simp
  have hidem : ∀ l : List String, setAdd (setAdd l w) w = setAdd l w := by
    intro l
    show (if w ∈ setAdd l w then setAdd l w else setAdd l w ++ [w]) = setAdd l w
    rw [if_pos (hmem l)]
  have hdel : ∀ l : List String, w ∉ l → setDel l w = l := by
    intro l
    induction l with
    | nil => intro _; rfl
    | cons x xs ih =>
      intro hx
      unfold setDel
      rw [if_neg (by intro hxw; exact hx (hxw ▸ List.mem_cons_self x xs))]
      rw [ih (fun hm => hx (List.mem_cons_of_mem x hm))]
  have hmapdel : ∀ m : List (String × List Handler), mapFind m w = none →
      mapDelete m w = m := by
    intro m
    induction m with
    | nil => intro _; rfl
    | cons p ps ih =>
      intro hf
      unfold mapFind at hf
      unfold mapDelete
      by_cases hpk : p.1 = w
      · rw [if_pos hpk] at hf; exact absurd hf (by simp)
      · rw [if_neg hpk] at hf
        rw [if_neg hpk, ih hf]
  constructor
  · rw [hsub s, hsub _]
    simp [hidem]
  · intro hw hf
    unfold unsubscribe
    rw [hdel _ hw, hmapdel _ hf]
    split <;> rfl

/-- Witness for C7 at concrete inputs. -/
theorem ws_subscribe_unsubscribe_idempotent_witness :
    (subscribe "w1" (subscribe "w1" initialService).1).1 = (subscribe "w1" initialService).1 ∧
    (unsubscribe "w1" initialService).1 = initialService := by
  have h := ws_subscribe_unsubscribe_idempotent "w1" initialService
  exact ⟨h.1, h.2 (by simp [initialService]) rfl⟩

/-- `subscribe` does not change the socket handle. -/
theorem subscribe_ws_eq (w : String) (s : WSService) : ((subscribe w s).1).ws = s.ws := by
  unfold subscribe
  split <;> rfl

/-- With an open socket, re-subscription sends one subscribe frame per
listed workflow, in order. -/
theorem resubscribeAll_msgs (l : List String) :
    ∀ s : WSService, s.ws = some WSReadyState.opened →
      (resubscribeAll l s).2 = l.map OutMsg.subscribeMsg := by
  induction l with
  | nil => intro s _; rfl
  | cons w rest ih =>
    intro s hs
    have h1 : (subscribe w s).2 = [OutMsg.subscribeMsg w] := by
      unfold subscribe
      rw [if_pos hs]
    have h2 : ((subscribe w s).1).ws = some WSReadyState.opened := by
      rw [subscribe_ws_eq]; exact hs
    simp [resubscribeAll, h1, ih _ h2]

/-- Claim C4: on every successful (re)connection the `onopen` handler
re-issues a subscribe frame for every workflow id in the subscription
bookkeeping — exactly one frame per id, and in particular one for each
subscribed workflow, without application code calling `subscribe` again. -/
theorem ws_reconnect_resubscribes_all (s : WSService) :
    (handleOpen s).2 = s.subscribedWorkflows.map OutMsg.subscribeMsg ∧
    (∀ w, w ∈ s.subscribedWorkflows → OutMsg.subscribeMsg w ∈ (handleOpen s).2) := by
  have h : (handleOpen s).2 = s.subscribedWorkflows.map OutMsg.subscribeMsg := by
    unfold handleOpen
    exact resubscribeAll_msgs _ _ rfl
  exact ⟨h, fun w hw => h ▸ List.mem_map_of_mem _ hw⟩

/-- Service state subscribed to workflows A and B. -/
def sampleSubscribedService : WSService :=
  { initialService with subscribedWorkflows := ["A", "B"] }

/-- Witness for C4 at a concrete state. -/
theorem ws_reconnect_resubscribes_all_witness :
    OutMsg.subscribeMsg "A" ∈ (handleOpen sampleSubscribedService).2 ∧
    OutMsg.subscribeMsg "B" ∈ (handleOpen sampleSubscribedService).2 := by
  have h := ws_reconnect_resubscribes_all sampleSubscribedService
  exact ⟨h.2 "A" (by simp [sampleSubscribedService, initialService]),
         h.2 "B" (by simp [sampleSubscribedService, initialService])⟩

/-- Effect of invoking one callback on the live callback array: a
self-removing callback splices itself out of the very array the dispatcher
is iterating (the source iterates the array returned by `Map.get`, without
a defensive copy). -/
def invokeStep (arr : List Handler) (h : Handler) : List Handler :=
  if h.removesSelf then spliceFirst arr h else arr

/-- `Array.prototype.forEach` over the live callback array, as used by
`handleEvent`: the length is read once at the start; index `k` is visited
only if it still exists in the (possibly spliced) array; each invocation is
wrapped in `try/catch`, so a throwing callback is recorded in the third
component and iteration continues.  Returns the final array, the ids
invoked in order, and the ids whose invocation threw (all caught). -/
def dispatchLoop : Nat → Nat → List Handler → List Nat → List Nat →
    List Handler × List Nat × List Nat
  | 0, _, arr, inv, caught => (arr, inv, caught)
  | rem + 1, k, arr, inv, caught =>
      match arr[k]? with
      | none => dispatchLoop rem (k + 1) arr inv caught
      | some h =>
          dispatchLoop rem (k + 1) (invokeStep arr h) (inv ++ [h.hid])
            (if h.throws then caught ++ [h.hid] else caught)

/-- The `callbacks.forEach(...)` loop of `handleEvent` on the callback
array registered for the event's workflow. -/
def dispatchCallbacks (arr : List Handler) : List Handler × List Nat × List Nat :=
  dispatchLoop arr.length 0 arr [] []

/-- The registry after dispatch: splices happened in place on the stored
array, and `off` deletes the key once the array becomes empty. -/
def syncRegistry (m : List (String × List Handler)) (w : String)
    (arr : List Handler) : List (String × List Handler) :=
  if arr = [] then mapDelete m w else mapUpdate m w arr

/-- `handleEvent` of `websocket.service.ts`: connection and subscription
acks are only logged; otherwise the callbacks registered for the event's
`workflow_id` are dispatched with `forEach` over the live array (an absent
or empty entry only logs a warning).  Returns the new service state, the
invoked callback ids in order, and the ids whose invocation threw (all
caught by the per-callback `try/catch`). -/
def handleWorkflowEvent (e : WorkflowEvent) (s : WSService) :
    WSService × List Nat × List Nat :=
  if e.event_type = WorkflowEventType.connection_ack ∨
      e.event_type = WorkflowEventType.subscription_ack then
    (s, [], [])
  else
    match mapFind s.eventCallbacks e.workflow_id with
    | none => (s, [], [])
    | some cbs =>
        if cbs = [] then (s, [], [])
        else
          let r := dispatchCallbacks cbs
          ({ s with eventCallbacks := syncRegistry s.eventCallbacks e.workflow_id r.1 },
           r.2.1, r.2.2)

/-- One public operation on the `WebSocketService` singleton. -/
inductive ServiceStep : WSService → WSService → Prop
  | connectCall (t : Option String) (s : WSService) : ServiceStep s (connect t s).1
  | openEvent (s : WSService) : ServiceStep s (handleOpen s).1
  | closeEvent (code : Nat) (s : WSService) : ServiceStep s (handleClose code s).state
  | messageEvent (e : WorkflowEvent) (s : WSService) :
      ServiceStep s (handleWorkflowEvent e s).1
  | subscribeCall (w : String) (s : WSService) : ServiceStep s (subscribe w s).1
  | unsubscribeCall (w : String) (s : WSService) : ServiceStep s (unsubscribe w s).1
  | onCall (w : String) (h : Handler) (s : WSService) :
      ServiceStep s { s with eventCallbacks := onCb w h s.eventCallbacks }
  | offCall (w : String) (h : Handler) (s : WSService) :
      ServiceStep s { s with eventCallbacks := offCb w h s.eventCallbacks }
  | disconnectCall (s : WSService) : ServiceStep s (disconnect s)

/-- Re-subscription does not change `connectionFailed`. -/
theorem resubscribeAll_connectionFailed (l : List String) :
    ∀ s : WSService, ((resubscribeAll l s).1).connectionFailed = s.connectionFailed := by
  induction l with
  | nil => intro s; rfl
  | cons w rest ih =>
    intro s
    have hsub : ((subscribe w s).1).connectionFailed = s.connectionFailed := by
      unfold subscribe; split <;> rfl
    simp [resubscribeAll, ih, hsub]

/-- `handleWorkflowEvent` does not change `connectionFailed`. -/
theorem handleWorkflowEvent_connectionFailed (e : WorkflowEvent) (s : WSService) :
    ((handleWorkflowEvent e s).1).connectionFailed = s.connectionFailed := by
  unfold handleWorkflowEvent
  split
  · rfl
  · split
    · rfl
    · split <;> rfl

/-- Claim C3: a reconnection attempt is scheduled exactly when the close
code differs from 1000 and fewer than `maxReconnectAttempts = 5` attempts
were made; attempt `n` waits `n * 1000` ms, a strictly increasing backoff;
a connect call in the degraded state returns unchanged without opening a
connection; and the degraded flag, once set, survives every service
operation, so the client never retries indefinitely. -/
theorem ws_reconnect_policy :
    (∀ (code : Nat) (s : WSService),
      (handleClose code s).scheduledDelayMs ≠ none ↔
        code ≠ 1000 ∧ s.reconnectAttempts < maxReconnectAttempts) ∧
    (∀ (code : Nat) (s : WSService),
      code ≠ 1000 → s.reconnectAttempts < maxReconnectAttempts →
      (handleClose code s).scheduledDelayMs =
        some (reconnectDelayMs * (s.reconnectAttempts + 1)) ∧
      (handleClose code s).state.reconnectAttempts = s.reconnectAttempts + 1) ∧
    (∀ m n : Nat, m < n → reconnectDelayMs * m < reconnectDelayMs * n) ∧
    (∀ s : WSService, s.connectionFailed = true →
      ∀ t, connect t s = (s, ConnectOutcome.skippedFailed)) ∧
    (∀ s t : WSService, s.connectionFailed = true → ServiceStep s t →
      t.connectionFailed = true) := by
  refine ⟨?_, ?_, ?_, ?_, ?_⟩
  · intro code s
    unfold handleClose
    by_cases h : code ≠ 1000 ∧ s.reconnectAttempts < maxReconnectAttempts
    · rw [if_pos h]
      simpa using h
    · rw [if_neg h]
      split <;> simpa using h
  · intro code s h1 h2
    unfold handleClose
    rw [if_pos ⟨h1, h2⟩]
    exact ⟨rfl, rfl⟩
  · intro m n h
    simp only [reconnectDelayMs]
    omega
  · intro s hf t
    unfold connect
    rw [if_pos hf]
  · intro s t hf hstep
    cases hstep with
    | connectCall tok s =>
        rw [(by unfold connect; rw [if_pos hf] : (connect tok s).1 = s)]
        exact hf
    | openEvent s =>
        show ((handleOpen s).1).connectionFailed = true
        exact (resubscribeAll_connectionFailed _ _).trans hf
    | closeEvent code s =>
        show ((handleClose code s).state).connectionFailed = true
        unfold handleClose
        split
        · exact hf
        · split
          · rfl
          · exact hf
    | messageEvent e s =>
        exact (handleWorkflowEvent_connectionFailed e s).trans hf
    | subscribeCall w s =>
        show ((subscribe w s).1).connectionFailed = true
        unfold subscribe
        split <;> exact hf
    | unsubscribeCall w s =>
        show ((unsubscribe w s).1).connectionFailed = true
        unfold unsubscribe
        split <;> exact hf
    | onCall w h s => exact hf
    | offCall w h s => exact hf
    | disconnectCall s => exact hf

/-- Service state already degraded by exhausted reconnection attempts. -/
def failedService : WSService :=
  { initialService with connectionFailed := true }

/-- Witness for C3 at concrete inputs. -/
theorem ws_reconnect_policy_witness :
    (handleClose 1006 initialService).scheduledDelayMs = some 1000 ∧
    (handleClose 1006 initialService).state.reconnectAttempts = 1 ∧
    reconnectDelayMs * 1 < reconnectDelayMs * 2 ∧
    connect (some "token") failedService = (failedService, ConnectOutcome.skippedFailed) ∧
    (disconnect failedService).connectionFailed = true := by
  obtain ⟨_, hb, hc, hd, he⟩ := ws_reconnect_policy
  have h1 := hb 1006 initialService (by decide) (by decide)
  exact ⟨h1.1, h1.2, hc 1 2 (by decide), hd failedService rfl (some "token"),
         he failedService _ rfl (ServiceStep.disconnectCall failedService)⟩

/-- Counterexample to claim C8 as stated: after a first `connect()` with no
token (which does reject and flags the failure), a second `connect()` with
no token returns without rejecting — the failure is not reported to that
caller. -/
theorem ws_connect_no_token_counterexample :
    (connect none ((connect none initialService).1)).2 = ConnectOutcome.skippedFailed ∧
    ConnectOutcome.skippedFailed ≠ ConnectOutcome.rejectedNoToken := by
  exact ⟨rfl, by decide⟩

/-- Claim C8 (amended): a `connect()` call with no token from a state that
is not already degraded, open, or connecting rejects with the error
reported to the caller and flags the service degraded; a call in the
degraded state returns unchanged without rejecting; and no call with a
missing token ever starts a connection, so calling code can continue in a
degraded mode. -/
theorem ws_connect_no_token_amended (s : WSService) :
    (s.connectionFailed = false → s.ws ≠ some WSReadyState.opened →
      s.isConnecting = false →
      connect none s =
        ({ s with isConnecting := false, connectionFailed := true },
         ConnectOutcome.rejectedNoToken)) ∧
    (s.connectionFailed = true →
      connect none s = (s, ConnectOutcome.skippedFailed)) ∧
    (connect none s).2 ≠ ConnectOutcome.connectionStarted := by
  refine ⟨?_, ?_, ?_⟩
  · intro h1 h2 h3
    unfold connect
    rw [if_neg (by simp [h1]), if_neg h2, if_neg (by simp [h3])]
  · intro h1
    unfold connect
    rw [if_pos h1]
  · unfold connect
    split
    · exact fun hc => ConnectOutcome.noConfusion hc
    · split
      · exact fun hc => ConnectOutcome.noConfusion hc
      · split
        · exact fun hc => ConnectOutcome.noConfusion hc
        · exact fun hc => ConnectOutcome.noConfusion hc

/-- Witness for the amended C8 at concrete states. -/
theorem ws_connect_no_token_amended_witness :
    connect none initialService =
      ({ initialService with isConnecting := false, connectionFailed := true },
       ConnectOutcome.rejectedNoToken) ∧
    connect none failedService = (failedService, ConnectOutcome.skippedFailed) := by
  have h1 := ws_connect_no_token_amended initialService
  have h2 := ws_connect_no_token_amended failedService
  exact ⟨h1.1 rfl (by decide) rfl, h2.2.1 rfl⟩

/-- When no callback removes itself, the `forEach` window from index `k`
for `rem` steps over a constant array invokes exactly the handlers of that
window, in order, and records exactly the throwing ones as caught. -/
theorem dispatchLoop_const (arr : List Handler)
    (hnr : ∀ h ∈ arr, h.removesSelf = false) :
    ∀ (rem k : Nat) (inv caught : List Nat),
      dispatchLoop rem k arr inv caught =
        (arr, inv ++ ((arr.drop k).take rem).map Handler.hid,
          caught ++ ((((arr.drop k).take rem).filter (fun h => h.throws)).map Handler.hid)) := by
  intro rem
  induction rem with
  | zero =>
    intro k inv caught
    simp [dispatchLoop]
  | succ n ih =>
    intro k inv caught
    by_cases hk : k < arr.length
    · have hget : arr[k]? = some arr[k] := List.getElem?_eq_getElem hk
      have hnr2 : (arr[k]).removesSelf = false := hnr _ (List.getElem_mem hk)
      have hdrop : arr.drop k = arr[k] :: arr.drop (k + 1) :=
        List.drop_eq_getElem_cons hk
      rw [dispatchLoop, hget]
      dsimp only
      have hstep : invokeStep arr arr[k] = arr := by
        unfold invokeStep
        rw [hnr2]
        rfl
      rw [hstep, ih (k + 1) (inv ++ [(arr[k]).hid])]
      rw [hdrop, List.take_succ_cons, List.map_cons, List.filter_cons]
      by_cases ht : (arr[k]).throws
      · rw [if_pos ht, if_pos (by simp [ht])]
        simp
      · rw [if_neg (by simp [ht]), if_neg (by simp [ht])]
        simp
    · have hget : arr[k]? = none := List.getElem?_eq_none (by omega)
      have hdrop : arr.drop k = [] := List.drop_eq_nil_of_le (by omega)
      have hdrop2 : arr.drop (k + 1) = [] := List.drop_eq_nil_of_le (by omega)
      rw [dispatchLoop, hget, ih (k + 1) inv caught, hdrop, hdrop2]
      simp

/-- When no callback removes itself, the dispatch loop of `handleEvent`
leaves the callback array unchanged, invokes every callback exactly once in
registration order, and catches exactly the throwing ones. -/
theorem dispatch_no_removal (cbs : List Handler)
    (hnr : ∀ h ∈ cbs, h.removesSelf = false) :
    dispatchCallbacks cbs =
      (cbs, cbs.map Handler.hid, (cbs.filter (fun h => h.throws)).map Handler.hid) := by
  unfold dispatchCallbacks
  rw [dispatchLoop_const cbs hnr cbs.length 0 [] []]
  simp

/-- Replacing the value found under a key with itself is the identity. -/
theorem mapUpdate_self (m : List (String × List Handler)) (w : String)
    (v : List Handler) (hf : mapFind m w = some v) : mapUpdate m w v = m := by
  induction m with
  | nil => exact absurd hf (by simp [mapFind])
  | cons p ps ih =>
    obtain ⟨a, b⟩ := p
    unfold mapFind at hf
    unfold mapUpdate
    by_cases hk : a = w
    · rw [if_pos hk] at hf
      rw [if_pos hk]
      simp only [Option.some.injEq] at hf
      rw [← hk, hf]
    · rw [if_neg hk] at hf
      rw [if_neg hk, ih hf]

/-- Counterexample to claim C9 as stated: with the callback array
`[remover, bystander]`, the remover splices itself out of the live array
during dispatch, the bystander shifts to index 0, and the `forEach` cursor
(already past 0) skips it — a handler registered when dispatch began is
invoked zero times. -/
theorem ws_dispatch_self_removal_counterexample :
    (Handler.mk 1 false false) ∈
      [Handler.mk 0 true false, Handler.mk 1 false false] ∧
    (Handler.mk 1 false false).removesSelf = false ∧
    (dispatchCallbacks
        [Handler.mk 0 true false, Handler.mk 1 false false]).2.1.count 1 = 0 := by
  decide

/-- Claim C9 (amended): dispatch iterates the live callback array, so a
handler that removes itself mid-dispatch makes the handler immediately
after it shift into the already-visited cursor position and be skipped for
that event; only when no handler removes itself during dispatch is every
handler that was registered when dispatch began invoked exactly once, in
registration order, with the array left intact. -/
theorem ws_dispatch_no_removal_amended (cbs : List Handler)
    (hnr : ∀ h ∈ cbs, h.removesSelf = false) :
    (dispatchCallbacks cbs).2.1 = cbs.map Handler.hid ∧
    (dispatchCallbacks cbs).1 = cbs := by
  rw [dispatch_no_removal cbs hnr]
  exact ⟨rfl, rfl⟩

/-- Witness for the amended C9 at a concrete input. -/
theorem ws_dispatch_no_removal_amended_witness :
    (dispatchCallbacks [Handler.mk 4 false false, Handler.mk 5 false false]).2.1 =
      [4, 5] := by
  exact (ws_dispatch_no_removal_amended
    [Handler.mk 4 false false, Handler.mk 5 false false] (by decide)).1

/-- Claim C10: event dispatch is total with respect to handler failures —
a throwing callback is caught inside the dispatcher (it lands in the
caught-ids output and dispatch still returns normally), every other
callback registered for the workflow is still invoked for the same event,
and the service state (subscription set and callback registry included) is
unchanged. -/
theorem ws_dispatch_throw_total (e : WorkflowEvent) (s : WSService)
    (cbs : List Handler)
    (h1 : e.event_type ≠ WorkflowEventType.connection_ack)
    (h2 : e.event_type ≠ WorkflowEventType.subscription_ack)
    (hf : mapFind s.eventCallbacks e.workflow_id = some cbs)
    (hnr : ∀ h ∈ cbs, h.removesSelf = false) :
    (handleWorkflowEvent e s).1 = s ∧
    (handleWorkflowEvent e s).2.1 = cbs.map Handler.hid ∧
    (handleWorkflowEvent e s).2.2 = (cbs.filter (fun h => h.throws)).map Handler.hid := by
  have hd := dispatch_no_removal cbs hnr
  unfold handleWorkflowEvent
  rw [if_neg (by simp [h1, h2]), hf]
  dsimp only
  by_cases hc : cbs = []
  · subst hc
    rw [if_pos rfl]
    exact ⟨rfl, rfl, rfl⟩
  · rw [if_neg hc]
    refine ⟨?_, ?_, ?_⟩
    · show { s with eventCallbacks :=
          syncRegistry s.eventCallbacks e.workflow_id (dispatchCallbacks cbs).1 } = s
      rw [show (dispatchCallbacks cbs).1 = cbs from by rw [hd]]
      unfold syncRegistry
      rw [if_neg hc, mapUpdate_self _ _ _ hf]
    · show (dispatchCallbacks cbs).2.1 = cbs.map Handler.hid
      rw [hd]
    · show (dispatchCallbacks cbs).2.2 = (cbs.filter (fun h => h.throws)).map Handler.hid
      rw [hd]

/-- Service state with a throwing and a quiet callback registered for
workflow `w1`. -/
def sampleDispatchService : WSService :=
  { initialService with
      subscribedWorkflows := ["w1"],
      eventCallbacks := [("w1", [Handler.mk 2 false true, Handler.mk 3 false false])] }

/-- A non-ack event for workflow `w1`. -/
def sampleDispatchEvent : WorkflowEvent :=
  { event_type := WorkflowEventType.stage_started, workflow_id := "w1",
    conversation_id := none, timestamp := 0, data := none }

/-- Witness for C10 at a concrete input with a throwing first callback. -/
theorem ws_dispatch_throw_total_witness :
    (handleWorkflowEvent sampleDispatchEvent sampleDispatchService).1 =
      sampleDispatchService ∧
    (handleWorkflowEvent sampleDispatchEvent sampleDispatchService).2.1 = [2, 3] ∧
    (handleWorkflowEvent sampleDispatchEvent sampleDispatchService).2.2 = [2] := by
  have h := ws_dispatch_throw_total sampleDispatchEvent sampleDispatchService
    [Handler.mk 2 false true, Handler.mk 3 false false]
    (by decide) (by decide) (by decide) (by decide)
  exact ⟨h.1, h.2.1, h.2.2⟩

end AgenticBI
